import Mathlib

/-!
Shallow embedding of the FloraSeven connection-health subsystem
(`Server/connection_status.py` and `Server/connection_monitor.py`).

Timestamps and durations are modelled as rationals (seconds); Python
dictionaries are modelled as association lists with `List.lookup`
(assignment prepends, so lookup sees the latest binding, matching
dict overwrite semantics); fallible external collaborators (registered
event callbacks, `database.add_notification`, the snapshot store) are
modelled as `Except`-valued functions, and the `try/except` handlers of
the source become total handling of the `.error` case.
-/

namespace FloraSeven

/-- Connection states, from the `CONNECTION_STATE_*` constants of
`connection_status.py`. -/
inductive CState
  | online
  | warning
  | error
  | critical
  | unknown
deriving DecidableEq, Repr

/-- Component types, from the `COMPONENT_TYPE_*` constants of
`connection_monitor.py`. -/
inductive CompType
  | hub
  | plantNode
  | camera
  | sensor
deriving DecidableEq, Repr

/-- Monitor lifecycle states, from the `MONITOR_STATE_*` constants of
`connection_monitor.py`. -/
inductive MState
  | active
  | paused
  | stopped
deriving DecidableEq, Repr, Fintype

/-- Result of a raised-and-caught Python exception from an external
collaborator. Python's `except Exception` handlers catch any such error. -/
inductive PyErr
  | exc (msg : String)
deriving DecidableEq, Repr

namespace ConnectionStatus

/-- Result record of `connection_status.get_component_status` (the dict it
returns; metadata enrichment for the five hard-coded ids is omitted as it
only adds display fields). -/
structure StatusResult where
  status : CState
  lastActivity : Option ℚ
  timeSinceLastActivity : Option ℚ
  message : String
deriving DecidableEq, Repr

/-- Embedding of `connection_status.get_component_status` (lines 146-197).
`lastActivity` is the ledger entry `_component_last_activity[component_id]`
(`none` when the id has no recorded activity). Python's `int()` in the
messages truncates toward zero; it agrees with `Int.floor` on the
non-negative elapsed values reachable in those branches under the default
positive thresholds. -/
def get_component_status (lastActivity : Option ℚ) (now : ℚ)
    (timeoutWarning timeoutError timeoutCritical : ℚ) : StatusResult :=
  match lastActivity with
  | none =>
      { status := .unknown
        lastActivity := none
        timeSinceLastActivity := none
        message := "No activity recorded for this component" }
  | some t =>
      let elapsed := now - t
      let secs : ℤ := ⌊elapsed⌋
      if elapsed < timeoutWarning then
        { status := .online
          lastActivity := some t
          timeSinceLastActivity := some elapsed
          message := "Component is online" }
      else if elapsed < timeoutError then
        { status := .warning
          lastActivity := some t
          timeSinceLastActivity := some elapsed
          message := s!"Component has not reported in {secs} seconds" }
      else if elapsed < timeoutCritical then
        { status := .error
          lastActivity := some t
          timeSinceLastActivity := some elapsed
          message := s!"Component may be offline (last activity: {secs} seconds ago)" }
      else
        { status := .critical
          lastActivity := some t
          timeSinceLastActivity := some elapsed
          message := s!"Component is offline (last activity: {secs} seconds ago)" }

/-- Live status record stored by `record_component_activity` in
`_component_status` (metadata enrichment omitted, as above). -/
structure LiveStatus where
  status : CState
  lastActivity : ℚ
  message : String
deriving DecidableEq, Repr

/-- Embedding of `connection_status.record_component_activity`
(lines 118-144): overwrite the ledger entry with `now` and mark the
component online. The function takes exactly one component-id argument. -/
def record_component_activity
    (ledger : List (String × ℚ)) (statusMap : List (String × LiveStatus))
    (component_id : String) (now : ℚ) :
    List (String × ℚ) × List (String × LiveStatus) :=
  ((component_id, now) :: ledger,
   (component_id, { status := .online, lastActivity := now
                    message := "Component is online" }) :: statusMap)

/-- Top-level names bound in the module `connection_status.py` (its
imported modules, constants, module dictionaries and function
definitions), transcribed from the source. Importing a name from this
module succeeds exactly when the name is in this list. -/
def module_toplevel_names : List String :=
  ["logging", "threading", "time", "json", "os", "uuid",
   "datetime", "timedelta", "config", "database", "logger",
   "CONNECTION_STATE_ONLINE", "CONNECTION_STATE_WARNING",
   "CONNECTION_STATE_ERROR", "CONNECTION_STATE_CRITICAL",
   "CONNECTION_STATE_UNKNOWN",
   "_component_last_activity", "_component_status", "_lock",
   "_last_notification", "_component_metadata", "_sensor_metadata",
   "record_component_activity", "get_component_status",
   "get_all_component_status", "check_components",
   "_send_email_alert", "start_monitoring",
   "save_status_to_file", "load_status_from_file",
   "initialize", "_server_start_time"]

end ConnectionStatus

namespace ConnectionMonitor

/-- Names that `connection_monitor.py` (lines 18-26) imports from
`connection_status`, transcribed from the source. -/
def names_imported_from_connection_status : List String :=
  ["CONNECTION_STATE_ONLINE", "CONNECTION_STATE_WARNING",
   "CONNECTION_STATE_ERROR", "CONNECTION_STATE_CRITICAL",
   "CONNECTION_STATE_UNKNOWN",
   "record_component_activity", "get_connection_status"]

/-- Monitoring configuration held by the monitor after
`_load_configuration`. -/
structure MonitorConfig where
  check_interval : ℤ
  notification_cooldown : ℤ
  timeout_warning : ℤ
  timeout_error : ℤ
  timeout_critical : ℤ
deriving DecidableEq, Repr

/-- Embedding of `ConnectionMonitor._load_configuration` (lines 71-86)
together with the `config.py` threshold constants it copies
(config lines 120-124): the configured values are stored verbatim.
The source performs no validation of any kind on the thresholds. -/
def load_configuration (check_interval notification_cooldown
    timeout_warning timeout_error timeout_critical : ℤ) : MonitorConfig :=
  { check_interval := check_interval
    notification_cooldown := notification_cooldown
    timeout_warning := timeout_warning
    timeout_error := timeout_error
    timeout_critical := timeout_critical }

/-- One entry of a component's `connection_history` list
(appended by `_handle_state_change`, lines 314-319). -/
structure HistEntry where
  state : CState
  timestamp : ℚ
  message : String
deriving DecidableEq, Repr

/-- One registry record, as built by `ConnectionMonitor._register_component`
(lines 112-139): static catalog fields plus the live fields. -/
structure Component where
  id : String
  type : CompType
  name : String
  critical : Bool
  expected_interval : ℤ
  parent : Option String
  last_seen : Option ℚ
  state : CState
  message : String
  consecutive_failures : ℕ
  uptime_percentage : ℚ
  connection_history : List HistEntry
deriving DecidableEq, Repr

/-- Embedding of `ConnectionMonitor._register_component` (lines 112-139). -/
def register_component (component_id : String) (component_type : CompType)
    (display_name : String) (critical : Bool) (expected_interval : ℤ)
    (parent : Option String) : Component :=
  { id := component_id
    type := component_type
    name := display_name
    critical := critical
    expected_interval := expected_interval
    parent := parent
    last_seen := none
    state := .unknown
    message := "Not yet connected"
    consecutive_failures := 0
    uptime_percentage := 0
    connection_history := [] }

/-- Embedding of `ConnectionMonitor._initialize_registry` (lines 88-110):
the fixed component catalog, in registration (= dict iteration) order. -/
def initialRegistry : List Component :=
  [register_component "main_hub" .hub "Main Hub" true 60 none,
   register_component "plant_node" .plantNode "Plant Node" true 60 none,
   register_component "camera" .camera "Camera" false 300 none,
   register_component "moisture" .sensor "Moisture Sensor" true 60 (some "plant_node"),
   register_component "temperature" .sensor "Temperature Sensor" false 60 (some "plant_node"),
   register_component "light" .sensor "Light Sensor" false 60 (some "plant_node"),
   register_component "ec" .sensor "EC Sensor" false 60 (some "plant_node"),
   register_component "ph" .sensor "pH Sensor" false 60 (some "main_hub"),
   register_component "uv" .sensor "UV Sensor" false 60 (some "main_hub")]

/-- One per-component status dict as read by
`ConnectionMonitor._update_component_status` (lines 249-278):
`state` is `status_data.get("state", CONNECTION_STATE_UNKNOWN)`;
`message` is present or absent; `last_connected`, when present, either
parses to a timestamp (`some (some t)`) or fails to parse
(`some none` — the source then falls back to the current time). -/
structure StatusData where
  state : Option CState
  message : Option String
  last_connected : Option (Option ℚ)
deriving DecidableEq, Repr

/-- Modelled from the spec: the snapshot returned by
`get_connection_status`, which `connection_monitor.py` imports from
`connection_status` and calls at the top of `_check_all_components`
(line 218) but which is defined nowhere in the repository. Its shape is
dictated by the consuming code: a dict of per-component status data with
sensor statuses nested under a `"sensors"` key
(`current_status.get("sensors", {})`, lines 225-232). The tick functions
below take such a snapshot as an explicit argument, so every theorem about
the tick quantifies over all possible behaviours of the missing
producer. -/
structure CurrentStatus where
  components : List (String × StatusData)
  sensors : List (String × StatusData)

/-- Embedding of `ConnectionMonitor._update_component_status`
(lines 249-278), acting on one registry record. -/
def update_component_status (c : Component) (status_data : StatusData)
    (now : ℚ) : Component :=
  let c : Component := { c with state := status_data.state.getD .unknown }
  let c : Component :=
    match status_data.message with
    | some m => { c with message := m }
    | none => c
  let c : Component :=
    match status_data.last_connected with
    | some (some t) => { c with last_seen := some t }
    | some none => { c with last_seen := some now }
    | none => c
  if c.state = .online then
    { c with consecutive_failures := 0 }
  else if c.state = .warning ∨ c.state = .error ∨ c.state = .critical then
    { c with consecutive_failures := c.consecutive_failures + 1 }
  else c

/-- One connection event, as built by `_handle_state_change`
(lines 292-301). -/
structure Event where
  component_id : String
  component_name : String
  component_type : CompType
  previous_state : CState
  new_state : CState
  timestamp : ℚ
  message : String
deriving DecidableEq, Repr

/-- One notification, as handed to `database.add_notification` by
`_send_notification` (lines 390-397). -/
structure Notification where
  component_id : String
  severity : String
  message : String
  timestamp : ℚ
deriving DecidableEq, Repr

/-- A registered connection-event callback: arbitrary external code that
may raise (`register_event_callback`, lines 489-497). -/
def EventCallback : Type := Event → Except PyErr Unit

/-- The `database.add_notification` collaborator: external fallible
code. -/
def DbAddNotification : Type := Notification → Except PyErr Unit

/-- Embedding of `ConnectionMonitor._trigger_event_callbacks`
(lines 499-510): every callback is invoked; each raised error is caught
by the per-callback `except` handler and logged. The returned list is the
log of caught errors. -/
def trigger_event_callbacks (callbacks : List EventCallback) (e : Event) :
    List PyErr :=
  callbacks.foldl
    (fun log cb =>
      match cb e with
      | .ok _ => log
      | .error err => log ++ [err])
    []

/-- Embedding of `ConnectionMonitor._send_notification` (lines 373-399):
the database write is wrapped in `try/except`; a failure is caught and
logged. Returns the log of caught errors. -/
def send_notification (dbAdd : DbAddNotification) (n : Notification) :
    List PyErr :=
  match dbAdd n with
  | .ok _ => []
  | .error err => [err]

/-- The transition-to-severity policy inside `_check_notification_needed`
(lines 346-366): returns the severity and message when a notification is
to be sent, `none` otherwise. -/
def notification_decision (c : Component) (previous_state new_state : CState) :
    Option (String × String) :=
  if new_state = .online ∧
      (previous_state = .warning ∨ previous_state = .error ∨
       previous_state = .critical) then
    some ("info", c.name ++ " has reconnected")
  else if new_state = .warning ∧ c.critical then
    some ("warning", c.name ++ " connection is degraded: " ++ c.message)
  else if new_state = .error ∨ new_state = .critical then
    some (if c.critical then "error" else "warning",
          c.name ++ " has disconnected: " ++ c.message)
  else none

/-- Embedding of `ConnectionMonitor._check_notification_needed`
(lines 327-371): first the per-component cooldown guard (keyed on
`_last_notification_time[component_id]`, dropping the transition when
inside the cooldown window), then the severity policy; on send, the
database write and the cooldown-map update. Returns the updated
`_last_notification_time` map, the notification sent (if any), and the
log of caught collaborator errors. -/
def check_notification_needed (dbAdd : DbAddNotification)
    (notification_cooldown : ℚ) (c : Component)
    (previous_state new_state : CState)
    (last_notification_time : List (String × ℚ)) (now : ℚ) :
    List (String × ℚ) × Option Notification × List PyErr :=
  let inCooldown : Bool :=
    match last_notification_time.lookup c.id with
    | some t => decide (now - t < notification_cooldown)
    | none => false
  if inCooldown then (last_notification_time, none, [])
  else
    match notification_decision c previous_state new_state with
    | some (severity, message) =>
        let n : Notification :=
          { component_id := c.id, severity := severity
            message := message, timestamp := now }
        let log := send_notification dbAdd n
        ((c.id, now) :: last_notification_time, some n, log)
    | none => (last_notification_time, none, [])

/-- Embedding of `ConnectionMonitor._handle_state_change` (lines 280-325):
append the event to the monitor event history, append to the component's
own history, fire the callbacks, then evaluate the notification policy.
Returns the updated component, event history, cooldown map, the
notification (if any) and the caught-error log. -/
def handle_state_change (callbacks : List EventCallback)
    (dbAdd : DbAddNotification) (notification_cooldown : ℚ) (c : Component)
    (previous_state new_state : CState) (event_history : List Event)
    (last_notification_time : List (String × ℚ)) (now : ℚ) :
    Component × List Event × List (String × ℚ) × Option Notification ×
      List PyErr :=
  let event : Event :=
    { component_id := c.id, component_name := c.name
      component_type := c.type, previous_state := previous_state
      new_state := new_state, timestamp := now, message := c.message }
  let event_history := event_history ++ [event]
  let c := { c with connection_history :=
      c.connection_history ++ [⟨new_state, now, c.message⟩] }
  let cbLog := trigger_event_callbacks callbacks event
  let r := check_notification_needed dbAdd notification_cooldown c
    previous_state new_state last_notification_time now
  (c, event_history, r.1, r.2.1, cbLog ++ r.2.2)

/-- Chronological order on history entries. The source sorts by the
ISO-format timestamp string; on the fixed-width timestamps the code
produces, that lexicographic order coincides with chronological order,
embedded here as comparison of the numeric timestamps. -/
def histLE (a b : HistEntry) : Prop := a.timestamp ≤ b.timestamp

instance : DecidableRel histLE := fun a b =>
  inferInstanceAs (Decidable (a.timestamp ≤ b.timestamp))

instance : IsTotal HistEntry histLE :=
  ⟨fun a b => le_total a.timestamp b.timestamp⟩

instance : IsTrans HistEntry histLE :=
  ⟨fun _ _ _ h h' => le_trans h h'⟩

/-- The duration scan of `_calculate_metrics` (lines 425-440): for each
entry of the (sorted) in-window history, the pair of its state and the
time until the next entry — or until `now` for the last entry. -/
def durations_from : List HistEntry → ℚ → List (CState × ℚ)
  | [], _ => []
  | [h], now => [(h.state, now - h.timestamp)]
  | h :: h2 :: rest, now =>
      (h.state, h2.timestamp - h.timestamp) :: durations_from (h2 :: rest) now

/-- Embedding of the body of `ConnectionMonitor._calculate_metrics`
(lines 401-448) for one component: keep in-window (trailing 24 h) history,
sort it, sum time-in-state; update `uptime_percentage` only when the
in-window history is non-empty and the total observed time is positive;
finally truncate the stored history to its 100 most recent entries. -/
def calculate_metrics (now : ℚ) (c : Component) : Component :=
  if c.connection_history = [] then c
  else
    let history := c.connection_history.filter fun h =>
      decide (now - 24 * 3600 < h.timestamp)
    let c : Component :=
      if history = [] then c
      else
        let sorted := List.insertionSort histLE history
        let durs := durations_from sorted now
        let total_time := (durs.map Prod.snd).sum
        let connected_time :=
          ((durs.filter fun p => decide (p.1 = CState.online)).map
            Prod.snd).sum
        if 0 < total_time then
          { c with uptime_percentage := connected_time / total_time * 100 }
        else c
    if 100 < c.connection_history.length then
      { c with connection_history :=
          c.connection_history.drop (c.connection_history.length - 100) }
    else c

/-- Embedding of `ConnectionMonitor._clean_history` (lines 450-459):
drop events older than the 7-day retention window. -/
def clean_history (now : ℚ) (event_history : List Event) : List Event :=
  event_history.filter fun e => decide (now - 7 * 86400 < e.timestamp)

/-- One component's record inside a status snapshot
(`_store_status_snapshot`, lines 470-480). -/
structure SnapshotEntry where
  id : String
  name : String
  type : CompType
  state : CState
  message : String
  last_seen : Option ℚ
  uptime_percentage : ℚ
  critical : Bool
deriving DecidableEq, Repr

/-- A full status snapshot (`_store_status_snapshot`, lines 461-487). -/
structure StatusSnapshot where
  timestamp : ℚ
  components : List (String × SnapshotEntry)
deriving DecidableEq, Repr

/-- The snapshot serialization of `_store_status_snapshot`
(lines 464-480). -/
def make_snapshot (now : ℚ) (registry : List Component) : StatusSnapshot :=
  { timestamp := now
    components := registry.map fun c =>
      (c.id,
       { id := c.id, name := c.name, type := c.type, state := c.state
         message := c.message, last_seen := c.last_seen
         uptime_percentage := c.uptime_percentage, critical := c.critical }) }

/-- The snapshot-store collaborator
(`database.store_connection_status`): external fallible code. -/
def StoreSnapshot : Type := StatusSnapshot → Except PyErr Unit

/-- Embedding of `ConnectionMonitor._store_status_snapshot`
(lines 461-487): the database write is wrapped in `try/except`; a failure
is caught and logged. Returns the log of caught errors. -/
def store_status_snapshot (store : StoreSnapshot) (now : ℚ)
    (registry : List Component) : List PyErr :=
  match store (make_snapshot now registry) with
  | .ok _ => []
  | .error err => [err]

/-- The monitor's mutable in-memory data: the component registry
(`_component_registry`, an insertion-ordered dict, embedded as a list in
iteration order), the event history and the per-component cooldown map. -/
structure MonitorData where
  registry : List Component
  event_history : List Event
  last_notification_time : List (String × ℚ)
deriving DecidableEq, Repr

/-- The status lookup of the tick loop (lines 224-232): sensor components
are looked up in the `"sensors"` sub-dict of the snapshot, all others at
the top level. -/
def status_lookup (cur : CurrentStatus) (c : Component) : Option StatusData :=
  if c.type = .sensor then cur.sensors.lookup c.id
  else cur.components.lookup c.id

/-- One iteration of the per-component loop of `_check_all_components`
(lines 221-237): remember the previous state, update from the status
snapshot when an entry is present, and on a state change run
`_handle_state_change`. Returns the updated component, event history,
cooldown map, the notification (if any), the caught-error log, and
whether the state changed. -/
def step_component (cur : CurrentStatus) (callbacks : List EventCallback)
    (dbAdd : DbAddNotification) (notification_cooldown : ℚ) (now : ℚ)
    (c : Component) (event_history : List Event)
    (last_notification_time : List (String × ℚ)) :
    Component × List Event × List (String × ℚ) × Option Notification ×
      List PyErr × Bool :=
  let previous_state := c.state
  let c : Component :=
    match status_lookup cur c with
    | some status_data => update_component_status c status_data now
    | none => c
  if c.state ≠ previous_state then
    let r := handle_state_change callbacks dbAdd notification_cooldown c
      previous_state c.state event_history last_notification_time now
    (r.1, r.2.1, r.2.2.1, r.2.2.2.1, r.2.2.2.2, true)
  else
    (c, event_history, last_notification_time, none, [], false)

/-- Accumulator of the per-component loop of `_check_all_components`. -/
structure TickAcc where
  registry : List Component
  event_history : List Event
  last_notification_time : List (String × ℚ)
  notifications : List Notification
  errLog : List PyErr
  status_changed : Bool

/-- Folding one component into the tick accumulator. -/
def process_component (cur : CurrentStatus) (callbacks : List EventCallback)
    (dbAdd : DbAddNotification) (notification_cooldown : ℚ) (now : ℚ)
    (acc : TickAcc) (c : Component) : TickAcc :=
  let r := step_component cur callbacks dbAdd notification_cooldown now c
    acc.event_history acc.last_notification_time
  { registry := acc.registry ++ [r.1]
    event_history := r.2.1
    last_notification_time := r.2.2.1
    notifications := acc.notifications ++ r.2.2.2.1.toList
    errLog := acc.errLog ++ r.2.2.2.2.1
    status_changed := acc.status_changed || r.2.2.2.2.2 }

/-- Embedding of `ConnectionMonitor._check_all_components` (lines 209-247):
process every registered component in registry order, recompute derived
metrics for every component, evict old events, and, when any status
changed, store one batched snapshot. The status snapshot `cur` is the
value the missing `get_connection_status` would return (see
`CurrentStatus`). Returns the updated monitor data, the notifications
sent this tick, and the log of caught collaborator errors. -/
def check_all_components (cur : CurrentStatus)
    (callbacks : List EventCallback) (dbAdd : DbAddNotification)
    (store : StoreSnapshot) (notification_cooldown : ℚ) (m : MonitorData)
    (now : ℚ) : MonitorData × List Notification × List PyErr :=
  let acc := m.registry.foldl
    (process_component cur callbacks dbAdd notification_cooldown now)
    { registry := [], event_history := m.event_history
      last_notification_time := m.last_notification_time
      notifications := [], errLog := [], status_changed := false }
  let registry := acc.registry.map (calculate_metrics now)
  let event_history := clean_history now acc.event_history
  let storeLog :=
    if acc.status_changed then store_status_snapshot store now registry
    else []
  ({ registry := registry, event_history := event_history
     last_notification_time := acc.last_notification_time },
   acc.notifications, acc.errLog ++ storeLog)

/-- Iterated ticks of the monitoring loop while the monitor is active,
one tick per element of the clock list, all reading the same status
snapshot (the steady-state setting of the temporal claims). Accumulates
the notifications of every tick. -/
def run_ticks (cur : CurrentStatus) (callbacks : List EventCallback)
    (dbAdd : DbAddNotification) (store : StoreSnapshot)
    (notification_cooldown : ℚ) :
    MonitorData → List ℚ → MonitorData × List Notification
  | m, [] => (m, [])
  | m, now :: rest =>
      let r := check_all_components cur callbacks dbAdd store
        notification_cooldown m now
      let r' := run_ticks cur callbacks dbAdd store notification_cooldown
        r.1 rest
      (r'.1, r.2.1 ++ r'.2)

/-- Embedding of `ConnectionMonitor.record_activity` (lines 582-596).
For a registered sensor component the source calls
`record_component_activity("sensors", component_id)` — two positional
arguments to a function whose definition (connection_status.py line 118)
takes exactly one — so that call raises `TypeError` before anything is
recorded; for other registered components the one-argument call records
the activity. Unregistered ids fall through without effect. -/
def record_activity (registry : List Component) (ledger : List (String × ℚ))
    (statusMap : List (String × ConnectionStatus.LiveStatus))
    (component_id : String) (now : ℚ) :
    Except PyErr
      (List (String × ℚ) × List (String × ConnectionStatus.LiveStatus)) :=
  match registry.find? (fun c => c.id == component_id) with
  | none => .ok (ledger, statusMap)
  | some c =>
      if c.type = .sensor then
        .error (.exc
          "TypeError: record_component_activity() takes 1 positional argument but 2 were given")
      else
        .ok (ConnectionStatus.record_component_activity ledger statusMap
          component_id now)

/-- The summary returned by `get_system_health_summary` (lines 598-652). -/
structure HealthSummary where
  timestamp : ℚ
  overall_health : String
  total_components : ℕ
  connected_components : ℕ
  warning_components : ℕ
  error_components : ℕ
  critical_components_count : ℕ
  unknown_components : ℕ
  critical_components : ℕ
  critical_disconnected : ℕ
  average_uptime : ℚ
deriving DecidableEq, Repr

/-- Embedding of `ConnectionMonitor.get_system_health_summary`
(lines 598-652). -/
def get_system_health_summary (registry : List Component) (now : ℚ) :
    HealthSummary :=
  let total_components := registry.length
  let connected_components :=
    registry.countP fun c => decide (c.state = CState.online)
  let warning_components :=
    registry.countP fun c => decide (c.state = CState.warning)
  let error_components :=
    registry.countP fun c => decide (c.state = CState.error)
  let critical_components_count :=
    registry.countP fun c => decide (c.state = CState.critical)
  let unknown_components :=
    registry.countP fun c => decide (c.state = CState.unknown)
  let critical_components := registry.filter fun c => c.critical
  let critical_disconnected := critical_components.countP fun c =>
    decide (c.state = CState.error ∨ c.state = CState.critical)
  let overall_health :=
    if 0 < critical_disconnected ∨ 0 < critical_components_count then
      "critical"
    else if 0 < error_components then "error"
    else if 0 < warning_components then "warning"
    else if unknown_components = total_components then "unknown"
    else "healthy"
  let uptime_values :=
    (registry.map fun c => c.uptime_percentage).filter fun u => decide (0 < u)
  let average_uptime :=
    if uptime_values ≠ [] then
      uptime_values.sum / (uptime_values.length : ℚ)
    else 0
  { timestamp := now
    overall_health := overall_health
    total_components := total_components
    connected_components := connected_components
    warning_components := warning_components
    error_components := error_components
    critical_components_count := critical_components_count
    unknown_components := unknown_components
    critical_components := critical_components.length
    critical_disconnected := critical_disconnected
    average_uptime := average_uptime }

/-- The overall-health aggregation rule in the words of the specification:
`critical` if any component is in the critical state or any
critical-flagged component is in state error or critical; else `error` if
any component is in the error state; else `warning` if any is in warning;
else `unknown` if every component is unknown; else `healthy`. Stated as a
second definition to be compared with `get_system_health_summary`. -/
def overall_health_spec (registry : List Component) : String :=
  if ∃ c ∈ registry, c.state = CState.critical ∨
      (c.critical ∧ (c.state = CState.error ∨ c.state = CState.critical)) then
    "critical"
  else if ∃ c ∈ registry, c.state = CState.error then "error"
  else if ∃ c ∈ registry, c.state = CState.warning then "warning"
  else if ∀ c ∈ registry, c.state = CState.unknown then "unknown"
  else "healthy"

/-- The component part of `step_component` in isolation: the per-component
state update of one tick depends only on the status snapshot, the clock
and the component itself — not on the histories, the cooldown map or the
collaborators. -/
def tick_component (cur : CurrentStatus) (now : ℚ) (c : Component) :
    Component :=
  let previous_state := c.state
  let c' : Component :=
    match status_lookup cur c with
    | some status_data => update_component_status c status_data now
    | none => c
  if c'.state ≠ previous_state then
    { c' with connection_history :=
        c'.connection_history ++ [⟨c'.state, now, c'.message⟩] }
  else c'

/-- A database collaborator that always succeeds. -/
def okDbAdd : DbAddNotification := fun _ => .ok ()

/-- A snapshot-store collaborator that always succeeds. -/
def okStore : StoreSnapshot := fun _ => .ok ()

/-- A database collaborator that always raises. -/
def failDbAdd : DbAddNotification := fun _ => .error (.exc "db down")

/-- An event callback that always raises. -/
def raisingCallback : EventCallback := fun _ => .error (.exc "callback boom")

/-- A status snapshot that reports the main hub in the warning state and
nothing else. -/
def warnCur : CurrentStatus :=
  { components := [("main_hub", { state := some .warning, message := none
                                  last_connected := none })]
    sensors := [] }

/-- The monitor data right after construction: the fixed catalog, no
events, no notifications sent. -/
def initialMonitorData : MonitorData :=
  { registry := initialRegistry
    event_history := []
    last_notification_time := [] }

/-- Scenario E input: the two critical-flagged components of the catalog
both disconnected (states error and critical), the camera still online. -/
def scenarioE_registry : List Component :=
  [{ register_component "main_hub" .hub "Main Hub" true 60 none with
      state := CState.error },
   { register_component "plant_node" .plantNode "Plant Node" true 60 none with
      state := CState.critical },
   { register_component "camera" .camera "Camera" false 300 none with
      state := CState.online }]

/-- A registry with known uptimes (two components above zero): input of
the average-uptime witness. -/
def uptimeRegistry : List Component :=
  [{ register_component "main_hub" .hub "Main Hub" true 60 none with
      uptime_percentage := 50 },
   { register_component "camera" .camera "Camera" false 300 none with
      uptime_percentage := 100 },
   register_component "plant_node" .plantNode "Plant Node" true 60 none]

/-- A concrete component with one hour of history, online for the first
half: input of the uptime witness. -/
def uptimeDemoComponent : Component :=
  { register_component "camera" .camera "Camera" false 300 none with
      state := CState.error
      uptime_percentage := 0
      connection_history :=
        [{ state := CState.online, timestamp := 0, message := "up" },
         { state := CState.error, timestamp := 1800, message := "down" }] }

/-- Embedding of `ConnectionMonitor.start` (lines 143-156): guard on the
lifecycle state, returning the new state and the boolean result. -/
def start : MState → MState × Bool
  | .stopped => (.active, true)
  | s => (s, false)

/-- Embedding of `ConnectionMonitor.stop` (lines 158-169). -/
def stop : MState → MState × Bool
  | .stopped => (.stopped, false)
  | _ => (.stopped, true)

/-- Embedding of `ConnectionMonitor.pause` (lines 171-180). -/
def pause : MState → MState × Bool
  | .active => (.paused, true)
  | s => (s, false)

/-- Embedding of `ConnectionMonitor.resume` (lines 182-191). -/
def resume : MState → MState × Bool
  | .paused => (.active, true)
  | s => (s, false)

end ConnectionMonitor

/-- C1: the connection-state classification of
`connection_status.get_component_status` is a pure function of
`elapsed = now - last_seen` and the three thresholds: no recorded
last-seen gives `unknown`; `elapsed < timeout_warning` gives `online`;
`timeout_warning <= elapsed < timeout_error` gives `warning`;
`timeout_error <= elapsed < timeout_critical` gives `error`;
`elapsed >= timeout_critical` gives `critical`; and a component last seen
120 seconds ago with thresholds (300, 600, 1800) classifies as
`online`. -/
theorem C1_classification_thresholds :
    (∀ (now t w e c : ℚ), w ≤ e → e ≤ c →
      (ConnectionStatus.get_component_status none now w e c).status =
        CState.unknown ∧
      (now - t < w →
        (ConnectionStatus.get_component_status (some t) now w e c).status =
          CState.online) ∧
      (w ≤ now - t → now - t < e →
        (ConnectionStatus.get_component_status (some t) now w e c).status =
          CState.warning) ∧
      (e ≤ now - t → now - t < c →
        (ConnectionStatus.get_component_status (some t) now w e c).status =
          CState.error) ∧
      (c ≤ now - t →
        (ConnectionStatus.get_component_status (some t) now w e c).status =
          CState.critical)) ∧
    (∀ now : ℚ,
      (ConnectionStatus.get_component_status (some (now - 120)) now
        300 600 1800).status = CState.online) := by
  constructor
  · intro now t w e c hwe hec
    refine ⟨rfl, fun h1 => ?_, fun h1 h2 => ?_, fun h1 h2 => ?_, fun h1 => ?_⟩
    · simp [ConnectionStatus.get_component_status, h1]
    · simp [ConnectionStatus.get_component_status, not_lt.mpr h1, h2]
    · have hnw : ¬(now - t < w) := not_lt.mpr (le_trans hwe h1)
      have hne : ¬(now - t < e) := not_lt.mpr h1
      simp [ConnectionStatus.get_component_status, hnw, hne, h2]
    · have hnw : ¬(now - t < w) := not_lt.mpr (le_trans hwe (le_trans hec h1))
      have hne : ¬(now - t < e) := not_lt.mpr (le_trans hec h1)
      have hnc : ¬(now - t < c) := not_lt.mpr h1
      simp [ConnectionStatus.get_component_status, hnw, hne, hnc]
  · intro now
    simp only [ConnectionStatus.get_component_status]
    norm_num

/-- Witness for C1: concrete classifications at thresholds
(300, 600, 1800), elapsed 120 (online) and elapsed 700 (error). -/
theorem C1_classification_thresholds_witness :
    (ConnectionStatus.get_component_status (some 0) 120 300 600 1800).status =
      CState.online ∧
    (ConnectionStatus.get_component_status (some 0) 700 300 600 1800).status =
      CState.error :=
  ⟨(C1_classification_thresholds.1 120 0 300 600 1800 (by norm_num)
      (by norm_num)).2.1 (by norm_num),
   (C1_classification_thresholds.1 700 0 300 600 1800 (by norm_num)
      (by norm_num)).2.2.2.1 (by norm_num) (by norm_num)⟩

/-- C9: the lifecycle operations are total guards: start succeeds exactly
from the stopped state (so start twice returns true then false), stop
succeeds unless already stopped (stop twice from active returns true then
false), pause succeeds only when active, resume only when paused. -/
theorem C9_lifecycle_guards :
    (∀ s : MState,
      (ConnectionMonitor.start s).2 = true ↔ s = MState.stopped) ∧
    (∀ s : MState,
      (ConnectionMonitor.stop s).2 = true ↔ s ≠ MState.stopped) ∧
    (∀ s : MState,
      (ConnectionMonitor.pause s).2 = true ↔ s = MState.active) ∧
    (∀ s : MState,
      (ConnectionMonitor.resume s).2 = true ↔ s = MState.paused) ∧
    (ConnectionMonitor.start MState.stopped = (MState.active, true) ∧
     ConnectionMonitor.start (ConnectionMonitor.start MState.stopped).1 =
       (MState.active, false)) ∧
    (ConnectionMonitor.stop MState.active = (MState.stopped, true) ∧
     ConnectionMonitor.stop (ConnectionMonitor.stop MState.active).1 =
       (MState.stopped, false)) ∧
    (ConnectionMonitor.pause MState.stopped = (MState.stopped, false) ∧
     ConnectionMonitor.resume MState.stopped = (MState.stopped, false)) := by
  decide

/-- Witness for C9: the guards applied at concrete lifecycle states. -/
theorem C9_lifecycle_guards_witness :
    (ConnectionMonitor.start MState.stopped).2 = true ∧
    (ConnectionMonitor.pause MState.active).2 = true ∧
    ¬(ConnectionMonitor.stop MState.stopped).2 = true :=
  ⟨(C9_lifecycle_guards.1 MState.stopped).mpr rfl,
   (C9_lifecycle_guards.2.2.1 MState.active).mpr rfl,
   fun h => (C9_lifecycle_guards.2.1 MState.stopped).mp h rfl⟩

/-- C3 counterexample: thresholds (600, 300, 100) violate
warning < error < critical, yet `_load_configuration` stores them
unchanged — no configuration validation exists — the monitor starts
normally, and classification proceeds with the non-monotonic
thresholds. -/
theorem C3_counterexample_no_rejection :
    ConnectionMonitor.load_configuration 60 300 600 300 100 =
      { check_interval := 60, notification_cooldown := 300
        timeout_warning := 600, timeout_error := 300
        timeout_critical := 100 } ∧
    ConnectionMonitor.start MState.stopped = (MState.active, true) ∧
    (ConnectionStatus.get_component_status (some 0) 50 600 300 100).status =
      CState.online :=
  ⟨rfl, rfl, by norm_num [ConnectionStatus.get_component_status]⟩

/-- C3 amended: constructing the monitor performs no threshold
validation: any thresholds, monotonic or not, are accepted verbatim by
`_load_configuration`, and the monitor starts normally regardless. -/
theorem C3_no_threshold_validation :
    ∀ i cd w e c : ℤ,
      ConnectionMonitor.load_configuration i cd w e c =
        { check_interval := i, notification_cooldown := cd
          timeout_warning := w, timeout_error := e
          timeout_critical := c } ∧
      ConnectionMonitor.start MState.stopped = (MState.active, true) :=
  fun _ _ _ _ _ => ⟨rfl, rfl⟩

/-- C2: the tick's status source does not exist: `connection_monitor.py`
pulls `get_connection_status` from `connection_status`, but no such name
is bound in that module (every other requested name is), so loading the
monitor module fails and no tick can reclassify any component. -/
theorem C2_status_source_missing :
    "get_connection_status" ∈
      ConnectionMonitor.names_imported_from_connection_status ∧
    ConnectionStatus.module_toplevel_names.contains
      "get_connection_status" = false ∧
    ConnectionMonitor.names_imported_from_connection_status.filter
      (fun n => !(ConnectionStatus.module_toplevel_names.contains n)) =
      ["get_connection_status"] := by
  decide

/-- C10: for the registered sensor component `"moisture"`,
`record_activity` raises `TypeError` — the source passes two positional
arguments to the one-parameter `record_component_activity` — and records
nothing, while for the registered non-sensor component `"main_hub"` it
records the current timestamp in the activity ledger and returns
normally. -/
theorem C10_sensor_record_raises :
    ∀ (ledger : List (String × ℚ))
      (statusMap : List (String × ConnectionStatus.LiveStatus)) (now : ℚ),
      ConnectionMonitor.record_activity ConnectionMonitor.initialRegistry
          ledger statusMap "moisture" now =
        Except.error (PyErr.exc
          "TypeError: record_component_activity() takes 1 positional argument but 2 were given") ∧
      ConnectionMonitor.record_activity ConnectionMonitor.initialRegistry
          ledger statusMap "main_hub" now =
        Except.ok (("main_hub", now) :: ledger,
          ("main_hub",
            { status := CState.online, lastActivity := now
              message := "Component is online" }) :: statusMap) := by
  intro ledger statusMap now
  exact ⟨rfl, rfl⟩

/-- Filtering the mapped uptime values is the same as mapping the
filtered components: relates the two phrasings of the average-uptime
population. -/
theorem uptime_values_eq_map_filter
    (registry : List ConnectionMonitor.Component) :
    ((registry.map fun c => c.uptime_percentage).filter fun u =>
        decide (0 < u)) =
      ((registry.filter fun c => decide (0 < c.uptime_percentage)).map
        fun c => c.uptime_percentage) := by
  induction registry with
  | nil => rfl
  | cons a l ih =>
      by_cases h : 0 < a.uptime_percentage <;>
        simp [List.filter_cons, h, ih]

/-- The code's first aggregation guard (a positive count of
critical-state components, or of disconnected critical-flagged ones) is
the specification's existential. -/
theorem health_critical_cond_iff
    (registry : List ConnectionMonitor.Component) :
    (0 < (registry.filter fun c => c.critical).countP
        (fun c => decide (c.state = CState.error ∨
          c.state = CState.critical)) ∨
     0 < registry.countP fun c => decide (c.state = CState.critical)) ↔
    (∃ c ∈ registry, c.state = CState.critical ∨
      (c.critical = true ∧
        (c.state = CState.error ∨ c.state = CState.critical))) := by
  simp only [List.countP_pos_iff, List.mem_filter, decide_eq_true_eq]
  constructor
  · rintro (⟨c, ⟨hc, hcrit⟩, hs⟩ | ⟨c, hc, hs⟩)
    · exact ⟨c, hc, Or.inr ⟨hcrit, hs⟩⟩
    · exact ⟨c, hc, Or.inl hs⟩
  · rintro ⟨c, hc, hs | ⟨hcrit, hs⟩⟩
    · exact Or.inr ⟨c, hc, hs⟩
    · exact Or.inl ⟨c, ⟨hc, hcrit⟩, hs⟩

/-- C7: the health summary's overall_health equals the specification's
aggregation rule (critical if any critical-state component or any
disconnected critical-flagged component; else error; else warning; else
unknown when all components are unknown; else healthy); average_uptime
is the mean of uptime_percentage over exactly the components with
positive uptime; and with two critical-flagged components both in state
error or critical, overall_health is critical with
critical_disconnected = 2. -/
theorem C7_health_summary_spec :
    (∀ (registry : List ConnectionMonitor.Component) (now : ℚ),
      (ConnectionMonitor.get_system_health_summary registry
          now).overall_health =
        ConnectionMonitor.overall_health_spec registry ∧
      ((registry.filter fun c => decide (0 < c.uptime_percentage)) ≠ [] →
        (ConnectionMonitor.get_system_health_summary registry
            now).average_uptime =
          ((registry.filter fun c =>
              decide (0 < c.uptime_percentage)).map
            fun c => c.uptime_percentage).sum /
          ((registry.filter fun c =>
              decide (0 < c.uptime_percentage)).length : ℚ))) ∧
    ((ConnectionMonitor.get_system_health_summary
        ConnectionMonitor.scenarioE_registry 0).overall_health =
      "critical" ∧
     (ConnectionMonitor.get_system_health_summary
        ConnectionMonitor.scenarioE_registry 0).critical_disconnected =
      2) := by
  refine ⟨fun registry now => ⟨?_, fun hne => ?_⟩, rfl, rfl⟩
  · have hcrit := health_critical_cond_iff registry
    have herr : (0 < registry.countP fun c =>
        decide (c.state = CState.error)) ↔
        ∃ c ∈ registry, c.state = CState.error := by
      simp [List.countP_pos_iff]
    have hwarn : (0 < registry.countP fun c =>
        decide (c.state = CState.warning)) ↔
        ∃ c ∈ registry, c.state = CState.warning := by
      simp [List.countP_pos_iff]
    have hunk : (registry.countP (fun c =>
        decide (c.state = CState.unknown)) = registry.length) ↔
        ∀ c ∈ registry, c.state = CState.unknown := by
      simp [List.countP_eq_length]
    simp only [ConnectionMonitor.get_system_health_summary,
      ConnectionMonitor.overall_health_spec]
    simp only [hcrit, herr, hwarn, hunk]
  · have hl := uptime_values_eq_map_filter registry
    have hmapne :
        ((registry.filter fun c =>
            decide (0 < c.uptime_percentage)).map
          fun c => c.uptime_percentage) ≠ [] := by
      simpa using hne
    simp only [ConnectionMonitor.get_system_health_summary, hl]
    simp [hmapne, List.length_map]

/-- Witness for C7: the average-uptime clause applied to the concrete
registry with uptimes 50 and 100. -/
theorem C7_health_summary_spec_witness :
    (ConnectionMonitor.uptimeRegistry.filter fun c =>
        decide (0 < c.uptime_percentage)).length = 2 ∧
    (ConnectionMonitor.get_system_health_summary
        ConnectionMonitor.uptimeRegistry 0).average_uptime =
      ((ConnectionMonitor.uptimeRegistry.filter fun c =>
          decide (0 < c.uptime_percentage)).map
        fun c => c.uptime_percentage).sum /
      ((ConnectionMonitor.uptimeRegistry.filter fun c =>
          decide (0 < c.uptime_percentage)).length : ℚ) :=
  ⟨by decide,
   (C7_health_summary_spec.1 ConnectionMonitor.uptimeRegistry 0).2
     (by decide)⟩

/-- The cooldown map and the notification produced by
`_check_notification_needed` do not depend on the database collaborator,
and the notification depends on the cooldown map only through the entry
of the component itself. -/
theorem check_notification_needed_core_eq
    (dbAdd dbAdd' : ConnectionMonitor.DbAddNotification) (cooldown : ℚ)
    (c : ConnectionMonitor.Component) (prev next : CState)
    (m1 m2 : List (String × ℚ)) (now : ℚ)
    (h : m1.lookup c.id = m2.lookup c.id) :
    (ConnectionMonitor.check_notification_needed dbAdd cooldown c prev next
        m1 now).2.1 =
      (ConnectionMonitor.check_notification_needed dbAdd' cooldown c prev
        next m2 now).2.1 := by
  unfold ConnectionMonitor.check_notification_needed
  rw [h]
  cases hl : m2.lookup c.id with
  | none =>
      cases hd : ConnectionMonitor.notification_decision c prev next with
      | none => simp [hd]
      | some sm => simp [hd]
  | some t =>
      by_cases hlt : now - t < cooldown
      · simp [hlt]
      · cases hd : ConnectionMonitor.notification_decision c prev next with
        | none => simp [hlt, hd]
        | some sm => simp [hlt, hd]

/-- The updated cooldown map of `_check_notification_needed` does not
depend on the database collaborator. -/
theorem check_notification_needed_map_eq
    (dbAdd dbAdd' : ConnectionMonitor.DbAddNotification) (cooldown : ℚ)
    (c : ConnectionMonitor.Component) (prev next : CState)
    (m : List (String × ℚ)) (now : ℚ) :
    (ConnectionMonitor.check_notification_needed dbAdd cooldown c prev next
        m now).1 =
      (ConnectionMonitor.check_notification_needed dbAdd' cooldown c prev
        next m now).1 := by
  unfold ConnectionMonitor.check_notification_needed
  cases hl : m.lookup c.id with
  | none =>
      cases hd : ConnectionMonitor.notification_decision c prev next with
      | none => simp [hd]
      | some sm => simp [hd]
  | some t =>
      by_cases hlt : now - t < cooldown
      · simp [hlt]
      · cases hd : ConnectionMonitor.notification_decision c prev next with
        | none => simp [hlt, hd]
        | some sm => simp [hlt, hd]

/-- Looking up a key in an association list ignores entries with other
keys. -/
theorem lookup_cons_ne {β : Type} (k a : String) (v : β)
    (m : List (String × β)) (h : a ≠ k) :
    ((a, v) :: m).lookup k = m.lookup k := by
  simp [List.lookup, beq_eq_false_iff_ne.mpr (Ne.symm h)]

/-- C6: the notification cooldown is tracked per component and keyed by
last-send time: a transition for a component whose last notification is
within the cooldown window is dropped — the cooldown map, which stores
only send times and no severity, is returned unchanged and nothing is
queued — while an entry for any other component never changes the
notification produced for this one. -/
theorem C6_cooldown_per_component :
    ∀ (dbAdd : ConnectionMonitor.DbAddNotification) (cooldown : ℚ)
      (c : ConnectionMonitor.Component) (prev next : CState)
      (m m1 m2 : List (String × ℚ)) (now t : ℚ),
      (m.lookup c.id = some t → now - t < cooldown →
        ConnectionMonitor.check_notification_needed dbAdd cooldown c prev
          next m now = (m, none, [])) ∧
      (m1.lookup c.id = m2.lookup c.id →
        (ConnectionMonitor.check_notification_needed dbAdd cooldown c prev
            next m1 now).2.1 =
          (ConnectionMonitor.check_notification_needed dbAdd cooldown c
            prev next m2 now).2.1) ∧
      (∀ (a : String) (ta : ℚ), a ≠ c.id →
        (ConnectionMonitor.check_notification_needed dbAdd cooldown c prev
            next ((a, ta) :: m) now).2.1 =
          (ConnectionMonitor.check_notification_needed dbAdd cooldown c
            prev next m now).2.1) := by
  intro dbAdd cooldown c prev next m m1 m2 now t
  refine ⟨fun hlook hlt => ?_, fun h12 => ?_, fun a ta ha => ?_⟩
  · unfold ConnectionMonitor.check_notification_needed
    simp [hlook, hlt]
  · exact check_notification_needed_core_eq dbAdd dbAdd cooldown c prev
      next m1 m2 now h12
  · exact check_notification_needed_core_eq dbAdd dbAdd cooldown c prev
      next ((a, ta) :: m) m now (lookup_cons_ne c.id a ta m ha)

/-- Witness for C6: a fresh camera-component transition inside another
component's cooldown window still notifies, while the same transition
inside its own cooldown window is dropped with the map unchanged. -/
theorem C6_cooldown_per_component_witness :
    ConnectionMonitor.check_notification_needed ConnectionMonitor.okDbAdd
        300 (ConnectionMonitor.register_component "camera" .camera
          "Camera" false 300 none) CState.online CState.error
        [("camera", 100)] 150 = ([("camera", 100)], none, []) ∧
    (ConnectionMonitor.check_notification_needed ConnectionMonitor.okDbAdd
        300 (ConnectionMonitor.register_component "camera" .camera
          "Camera" false 300 none) CState.online CState.error
        [("main_hub", 100)] 150).2.1 =
      some { component_id := "camera", severity := "warning"
             message := "Camera has disconnected: Not yet connected"
             timestamp := 150 } := by
  constructor
  · exact (C6_cooldown_per_component ConnectionMonitor.okDbAdd 300
      (ConnectionMonitor.register_component "camera" .camera "Camera"
        false 300 none) CState.online CState.error
      [("camera", 100)] [] [] 150 100).1 (by decide) (by norm_num)
  · rw [(C6_cooldown_per_component ConnectionMonitor.okDbAdd 300
      (ConnectionMonitor.register_component "camera" .camera "Camera"
        false 300 none) CState.online CState.error
      [] [] [] 150 0).2.2 "main_hub" 100 (by decide)]
    rfl

/-- Every duration computed by the uptime scan is non-negative when the
history is sorted and all timestamps precede the clock. -/
theorem durations_from_nonneg :
    ∀ (l : List ConnectionMonitor.HistEntry) (now : ℚ),
      l.Sorted ConnectionMonitor.histLE →
      (∀ h ∈ l, h.timestamp ≤ now) →
      ∀ p ∈ ConnectionMonitor.durations_from l now, 0 ≤ p.2
  | [], _, _, _ => by simp [ConnectionMonitor.durations_from]
  | [h], now, _, hn => by
      intro p hp
      simp only [ConnectionMonitor.durations_from,
        List.mem_singleton] at hp
      subst hp
      simpa using sub_nonneg.mpr (hn h (List.mem_singleton_self h))
  | a :: b :: l, now, hs, hn => by
      intro p hp
      simp only [ConnectionMonitor.durations_from] at hp
      rcases List.mem_cons.mp hp with rfl | hp'
      · exact sub_nonneg.mpr
          ((List.sorted_cons.mp hs).1 b (List.mem_cons_self b l))
      · exact durations_from_nonneg (b :: l) now
          (List.sorted_cons.mp hs).2
          (fun h hm => hn h (List.mem_cons_of_mem a hm)) p hp'

/-- The online time of the uptime scan lies between zero and the total
time when every duration is non-negative. -/
theorem online_sum_bounds :
    ∀ l : List (CState × ℚ), (∀ p ∈ l, 0 ≤ p.2) →
      0 ≤ ((l.filter fun p => decide (p.1 = CState.online)).map
        Prod.snd).sum ∧
      ((l.filter fun p => decide (p.1 = CState.online)).map
        Prod.snd).sum ≤ (l.map Prod.snd).sum := by
  intro l
  induction l with
  | nil => simp
  | cons a l ih =>
      intro hn
      have ha := hn a (List.mem_cons_self a l)
      have ih' := ih fun p hp => hn p (List.mem_cons_of_mem a hp)
      by_cases h : a.1 = CState.online
      · simp only [List.filter_cons, decide_eq_true_eq, h, if_pos,
          List.map_cons, List.sum_cons]
        exact ⟨by linarith [ih'.1], by linarith [ih'.2]⟩
      · simp only [List.filter_cons, decide_eq_true_eq, h, if_neg,
          List.map_cons, List.sum_cons, if_false]
        exact ⟨ih'.1, by linarith [ih'.2]⟩

/-- C8: after the metric recomputation of a tick, uptime_percentage stays
within [0, 100] (given it was, and given the history precedes the clock;
as a rational it can never be NaN), a freshly registered component starts
at uptime 0, and when no history entry lies inside the trailing 24-hour
window the uptime keeps its previous value instead of resetting. -/
theorem C8_uptime_bounds :
    ∀ (c : ConnectionMonitor.Component) (now : ℚ),
      (∀ h ∈ c.connection_history, h.timestamp ≤ now) →
      0 ≤ c.uptime_percentage → c.uptime_percentage ≤ 100 →
      (0 ≤ (ConnectionMonitor.calculate_metrics now c).uptime_percentage ∧
       (ConnectionMonitor.calculate_metrics now c).uptime_percentage ≤
         100) ∧
      ((c.connection_history.filter fun h =>
          decide (now - 24 * 3600 < h.timestamp)) = [] →
        (ConnectionMonitor.calculate_metrics now c).uptime_percentage =
          c.uptime_percentage) ∧
      (∀ cid ty nm cr iv pa,
        (ConnectionMonitor.register_component cid ty nm cr iv
          pa).uptime_percentage = 0) := by
  intro c now hts h0 h100
  refine ⟨?_, ?_, fun _ _ _ _ _ _ => rfl⟩
  · unfold ConnectionMonitor.calculate_metrics
    by_cases hnil : c.connection_history = []
    · simpa [hnil] using ⟨h0, h100⟩
    · simp only [hnil, if_false]
      by_cases hfe : (c.connection_history.filter fun h =>
          decide (now - 24 * 3600 < h.timestamp)) = []
      · simp only [hfe]
        split_ifs <;> simpa using ⟨h0, h100⟩
      · simp only [hfe, if_false]
        have hsort : (List.insertionSort ConnectionMonitor.histLE
            (c.connection_history.filter fun h =>
              decide (now - 24 * 3600 < h.timestamp))).Sorted
            ConnectionMonitor.histLE :=
          List.sorted_insertionSort ConnectionMonitor.histLE _
        have hmem : ∀ h ∈ List.insertionSort ConnectionMonitor.histLE
            (c.connection_history.filter fun h =>
              decide (now - 24 * 3600 < h.timestamp)),
            h.timestamp ≤ now := by
          intro h hm
          have hmf : h ∈ c.connection_history.filter fun h =>
              decide (now - 24 * 3600 < h.timestamp) :=
            (List.perm_insertionSort ConnectionMonitor.histLE _).mem_iff.mp
              hm
          exact hts h (List.mem_filter.mp hmf).1
        have hd := durations_from_nonneg _ now hsort hmem
        have hb := online_sum_bounds
          (ConnectionMonitor.durations_from
            (List.insertionSort ConnectionMonitor.histLE
              (c.connection_history.filter fun h =>
                decide (now - 24 * 3600 < h.timestamp))) now) hd
        by_cases htpos : 0 <
            ((ConnectionMonitor.durations_from
              (List.insertionSort ConnectionMonitor.histLE
                (c.connection_history.filter fun h =>
                  decide (now - 24 * 3600 < h.timestamp))) now).map
              Prod.snd).sum
        · have h1 : 0 ≤
              (((ConnectionMonitor.durations_from
                (List.insertionSort ConnectionMonitor.histLE
                  (c.connection_history.filter fun h =>
                    decide (now - 24 * 3600 < h.timestamp)))
                now).filter fun p => decide (p.1 = CState.online)).map
                Prod.snd).sum /
              ((ConnectionMonitor.durations_from
                (List.insertionSort ConnectionMonitor.histLE
                  (c.connection_history.filter fun h =>
                    decide (now - 24 * 3600 < h.timestamp))) now).map
                Prod.snd).sum * 100 :=
            mul_nonneg (div_nonneg hb.1 (le_of_lt htpos)) (by norm_num)
          have hq : (((ConnectionMonitor.durations_from
                (List.insertionSort ConnectionMonitor.histLE
                  (c.connection_history.filter fun h =>
                    decide (now - 24 * 3600 < h.timestamp)))
                now).filter fun p => decide (p.1 = CState.online)).map
                Prod.snd).sum /
              ((ConnectionMonitor.durations_from
                (List.insertionSort ConnectionMonitor.histLE
                  (c.connection_history.filter fun h =>
                    decide (now - 24 * 3600 < h.timestamp))) now).map
                Prod.snd).sum ≤ 1 :=
            (div_le_one htpos).mpr hb.2
          have h2 : (((ConnectionMonitor.durations_from
                (List.insertionSort ConnectionMonitor.histLE
                  (c.connection_history.filter fun h =>
                    decide (now - 24 * 3600 < h.timestamp)))
                now).filter fun p => decide (p.1 = CState.online)).map
                Prod.snd).sum /
              ((ConnectionMonitor.durations_from
                (List.insertionSort ConnectionMonitor.histLE
                  (c.connection_history.filter fun h =>
                    decide (now - 24 * 3600 < h.timestamp))) now).map
                Prod.snd).sum * 100 ≤ 100 := by linarith
          simp only [htpos, if_true]
          split_ifs <;> exact ⟨h1, h2⟩
        · simp only [htpos, if_false]
          split_ifs <;> simpa using ⟨h0, h100⟩
  · intro hfe
    unfold ConnectionMonitor.calculate_metrics
    by_cases hnil : c.connection_history = []
    · simp [hnil]
    · simp only [hnil, if_false, hfe]
      split_ifs <;> rfl

/-- Witness for C8: the demo component, online for the first half of its
hour of history, gets an uptime within bounds at clock 3600. -/
theorem C8_uptime_bounds_witness :
    0 ≤ (ConnectionMonitor.calculate_metrics 3600
      ConnectionMonitor.uptimeDemoComponent).uptime_percentage ∧
    (ConnectionMonitor.calculate_metrics 3600
      ConnectionMonitor.uptimeDemoComponent).uptime_percentage ≤ 100 :=
  ⟨(C8_uptime_bounds ConnectionMonitor.uptimeDemoComponent 3600
      (by decide) (by decide) (by decide)).1.1,
   (C8_uptime_bounds ConnectionMonitor.uptimeDemoComponent 3600
      (by decide) (by decide) (by decide)).1.2⟩

/-- The status update preserves the static fields of a component and
sets its state from the status data. -/
theorem update_component_status_fields
    (c : ConnectionMonitor.Component) (sd : ConnectionMonitor.StatusData)
    (now : ℚ) :
    (ConnectionMonitor.update_component_status c sd now).id = c.id ∧
    (ConnectionMonitor.update_component_status c sd now).type = c.type ∧
    (ConnectionMonitor.update_component_status c sd now).state =
      sd.state.getD CState.unknown ∧
    (ConnectionMonitor.update_component_status c sd now).connection_history
      = c.connection_history := by
  obtain ⟨st, msg, lc⟩ := sd
  unfold ConnectionMonitor.update_component_status
  rcases msg with _ | m <;> rcases lc with _ | (_ | t) <;>
    (dsimp only; split_ifs <;> simp)

/-- The pure tick update preserves a component's id and type. -/
theorem tick_component_id_type (cur : ConnectionMonitor.CurrentStatus)
    (now : ℚ) (c : ConnectionMonitor.Component) :
    (ConnectionMonitor.tick_component cur now c).id = c.id ∧
    (ConnectionMonitor.tick_component cur now c).type = c.type := by
  unfold ConnectionMonitor.tick_component
  cases hsl : ConnectionMonitor.status_lookup cur c with
  | none =>
      dsimp only
      split_ifs <;> simp
  | some sd =>
      have hu := update_component_status_fields c sd now
      dsimp only
      split_ifs <;> simp [hu.1, hu.2.1]

/-- When the status snapshot reports the warning state for a component,
the pure tick update puts the component in the warning state. -/
theorem tick_component_state_warm (cur : ConnectionMonitor.CurrentStatus)
    (now : ℚ) (c : ConnectionMonitor.Component)
    (h : Option.map ConnectionMonitor.StatusData.state
      (ConnectionMonitor.status_lookup cur c) = some (some CState.warning)) :
    (ConnectionMonitor.tick_component cur now c).state = CState.warning := by
  unfold ConnectionMonitor.tick_component
  cases hsl : ConnectionMonitor.status_lookup cur c with
  | none => rw [hsl] at h; simp at h
  | some sd =>
      have hst : sd.state = some CState.warning := by
        rw [hsl] at h
        simpa using h
      have hu := update_component_status_fields c sd now
      dsimp only
      split_ifs <;> simp [hu.2.2.1, hst]

/-- Metric recomputation preserves a component's id, type and state. -/
theorem calculate_metrics_fields (now : ℚ)
    (c : ConnectionMonitor.Component) :
    (ConnectionMonitor.calculate_metrics now c).id = c.id ∧
    (ConnectionMonitor.calculate_metrics now c).type = c.type ∧
    (ConnectionMonitor.calculate_metrics now c).state = c.state := by
  unfold ConnectionMonitor.calculate_metrics
  by_cases hnil : c.connection_history = []
  · simp [hnil]
  · simp only [hnil, if_false]
    by_cases hfe : (c.connection_history.filter fun h =>
        decide (now - 24 * 3600 < h.timestamp)) = []
    · simp only [hfe]
      split_ifs <;> simp
    · simp only [hfe, if_false]
      split_ifs <;> simp

/-- The status lookup depends only on a component's id and type. -/
theorem status_lookup_congr (cur : ConnectionMonitor.CurrentStatus)
    (c c' : ConnectionMonitor.Component) (hid : c'.id = c.id)
    (hty : c'.type = c.type) :
    ConnectionMonitor.status_lookup cur c' =
      ConnectionMonitor.status_lookup cur c := by
  unfold ConnectionMonitor.status_lookup
  rw [hid, hty]

/-- A notification produced by `_check_notification_needed` is keyed by
the component that produced it. -/
theorem check_notification_needed_notif_id
    (db : ConnectionMonitor.DbAddNotification) (cd : ℚ)
    (c : ConnectionMonitor.Component) (ps ns : CState)
    (m : List (String × ℚ)) (now : ℚ)
    (n : ConnectionMonitor.Notification)
    (h : (ConnectionMonitor.check_notification_needed db cd c ps ns m
      now).2.1 = some n) :
    n.component_id = c.id := by
  unfold ConnectionMonitor.check_notification_needed at h
  dsimp only at h
  split at h
  · simp at h
  · split at h
    · dsimp only at h
      have h' := Option.some.inj h
      rw [← h']
    · simp at h

/-- The component result of one per-component step is the pure tick
update, independent of histories, cooldown map and collaborators. -/
theorem step_component_comp (cur : ConnectionMonitor.CurrentStatus)
    (cbs : List ConnectionMonitor.EventCallback)
    (db : ConnectionMonitor.DbAddNotification) (cd now : ℚ)
    (c : ConnectionMonitor.Component) (eh : List ConnectionMonitor.Event)
    (ln : List (String × ℚ)) :
    (ConnectionMonitor.step_component cur cbs db cd now c eh ln).1 =
      ConnectionMonitor.tick_component cur now c := by
  unfold ConnectionMonitor.step_component ConnectionMonitor.tick_component
    ConnectionMonitor.handle_state_change
  dsimp only
  split_ifs <;> rfl

/-- A notification produced by one per-component step carries the id of
the component it was produced for. -/
theorem step_component_notif_id (cur : ConnectionMonitor.CurrentStatus)
    (cbs : List ConnectionMonitor.EventCallback)
    (db : ConnectionMonitor.DbAddNotification) (cd now : ℚ)
    (c : ConnectionMonitor.Component) (eh : List ConnectionMonitor.Event)
    (ln : List (String × ℚ)) (n : ConnectionMonitor.Notification)
    (h : (ConnectionMonitor.step_component cur cbs db cd now c eh
      ln).2.2.2.1 = some n) :
    n.component_id = c.id := by
  revert h
  unfold ConnectionMonitor.step_component ConnectionMonitor.handle_state_change
  dsimp only
  cases hsl : ConnectionMonitor.status_lookup cur c with
  | none =>
      simp only [hsl]
      split_ifs
      · intro h
        have hid := check_notification_needed_notif_id _ _ _ _ _ _ _ _ h
        simpa using hid
      · intro h
        simp at h
  | some sd =>
      have hu := update_component_status_fields c sd now
      simp only [hsl]
      split_ifs
      · intro h
        have hid := check_notification_needed_notif_id _ _ _ _ _ _ _ _ h
        simpa [hu.1] using hid
      · intro h
        simp at h

/-- The non-log outputs of one per-component step do not depend on the
callbacks or on the database collaborator. -/
theorem step_component_core_eq (cur : ConnectionMonitor.CurrentStatus)
    (cbs cbs' : List ConnectionMonitor.EventCallback)
    (db db' : ConnectionMonitor.DbAddNotification) (cd now : ℚ)
    (c : ConnectionMonitor.Component) (eh : List ConnectionMonitor.Event)
    (ln : List (String × ℚ)) :
    (ConnectionMonitor.step_component cur cbs db cd now c eh ln).1 =
      (ConnectionMonitor.step_component cur cbs' db' cd now c eh ln).1 ∧
    (ConnectionMonitor.step_component cur cbs db cd now c eh ln).2.1 =
      (ConnectionMonitor.step_component cur cbs' db' cd now c eh ln).2.1 ∧
    (ConnectionMonitor.step_component cur cbs db cd now c eh ln).2.2.1 =
      (ConnectionMonitor.step_component cur cbs' db' cd now c eh
        ln).2.2.1 ∧
    (ConnectionMonitor.step_component cur cbs db cd now c eh ln).2.2.2.1 =
      (ConnectionMonitor.step_component cur cbs' db' cd now c eh
        ln).2.2.2.1 ∧
    (ConnectionMonitor.step_component cur cbs db cd now c eh
        ln).2.2.2.2.2 =
      (ConnectionMonitor.step_component cur cbs' db' cd now c eh
        ln).2.2.2.2.2 := by
  unfold ConnectionMonitor.step_component ConnectionMonitor.handle_state_change
  dsimp only
  split_ifs
  · refine ⟨rfl, rfl, ?_, ?_, rfl⟩
    · exact check_notification_needed_map_eq db db' cd _ _ _ _ _
    · exact check_notification_needed_core_eq db db' cd _ _ _ _ _ _ rfl
  · exact ⟨rfl, rfl, rfl, rfl, rfl⟩

/-- In the steady state — the snapshot keeps reporting warning and the
component is already in warning — a per-component step changes nothing
and produces no notification. -/
theorem step_component_steady (cur : ConnectionMonitor.CurrentStatus)
    (cbs : List ConnectionMonitor.EventCallback)
    (db : ConnectionMonitor.DbAddNotification) (cd now : ℚ)
    (c : ConnectionMonitor.Component) (eh : List ConnectionMonitor.Event)
    (ln : List (String × ℚ))
    (hsd : Option.map ConnectionMonitor.StatusData.state
      (ConnectionMonitor.status_lookup cur c) = some (some CState.warning))
    (hw : c.state = CState.warning) :
    (ConnectionMonitor.step_component cur cbs db cd now c eh ln).2.1 =
      eh ∧
    (ConnectionMonitor.step_component cur cbs db cd now c eh ln).2.2.1 =
      ln ∧
    (ConnectionMonitor.step_component cur cbs db cd now c eh
      ln).2.2.2.1 = none ∧
    (ConnectionMonitor.step_component cur cbs db cd now c eh
      ln).2.2.2.2.2 = false := by
  unfold ConnectionMonitor.step_component
  dsimp only
  cases hsl : ConnectionMonitor.status_lookup cur c with
  | none => rw [hsl] at hsd; simp at hsd
  | some sd =>
      have hst : sd.state = some CState.warning := by
        rw [hsl] at hsd
        simpa using hsd
      have hu := update_component_status_fields c sd now
      have hcond :
          ¬((ConnectionMonitor.update_component_status c sd now).state ≠
            c.state) := by
        rw [hu.2.2.1, hst, hw]
        simp
      simp only [hsl, hcond, if_neg, if_false]
      trivial

/-- The registry accumulated by the per-component loop is the input
registry mapped through the pure per-component tick update. -/
theorem fold_process_registry (cur : ConnectionMonitor.CurrentStatus)
    (cbs : List ConnectionMonitor.EventCallback)
    (db : ConnectionMonitor.DbAddNotification) (cd now : ℚ) :
    ∀ (reg : List ConnectionMonitor.Component)
      (acc : ConnectionMonitor.TickAcc),
      (reg.foldl (ConnectionMonitor.process_component cur cbs db cd now)
        acc).registry =
        acc.registry ++ reg.map (ConnectionMonitor.tick_component cur
          now) := by
  intro reg
  induction reg with
  | nil => intro acc; simp
  | cons c reg ih =>
      intro acc
      simp only [List.foldl_cons, List.map_cons]
      rw [ih]
      simp only [ConnectionMonitor.process_component]
      rw [step_component_comp]
      simp

/-- The per-component loop's outputs other than the error log are the
same under any collaborator behaviour. -/
theorem fold_process_core_eq (cur : ConnectionMonitor.CurrentStatus)
    (cbs cbs' : List ConnectionMonitor.EventCallback)
    (db db' : ConnectionMonitor.DbAddNotification) (cd now : ℚ) :
    ∀ (reg : List ConnectionMonitor.Component)
      (acc acc' : ConnectionMonitor.TickAcc),
      acc.registry = acc'.registry →
      acc.event_history = acc'.event_history →
      acc.last_notification_time = acc'.last_notification_time →
      acc.notifications = acc'.notifications →
      acc.status_changed = acc'.status_changed →
      (reg.foldl (ConnectionMonitor.process_component cur cbs db cd now)
          acc).registry =
        (reg.foldl (ConnectionMonitor.process_component cur cbs' db' cd
          now) acc').registry ∧
      (reg.foldl (ConnectionMonitor.process_component cur cbs db cd now)
          acc).event_history =
        (reg.foldl (ConnectionMonitor.process_component cur cbs' db' cd
          now) acc').event_history ∧
      (reg.foldl (ConnectionMonitor.process_component cur cbs db cd now)
          acc).last_notification_time =
        (reg.foldl (ConnectionMonitor.process_component cur cbs' db' cd
          now) acc').last_notification_time ∧
      (reg.foldl (ConnectionMonitor.process_component cur cbs db cd now)
          acc).notifications =
        (reg.foldl (ConnectionMonitor.process_component cur cbs' db' cd
          now) acc').notifications ∧
      (reg.foldl (ConnectionMonitor.process_component cur cbs db cd now)
          acc).status_changed =
        (reg.foldl (ConnectionMonitor.process_component cur cbs' db' cd
          now) acc').status_changed := by
  intro reg
  induction reg with
  | nil =>
      intro acc acc' h1 h2 h3 h4 h5
      exact ⟨h1, h2, h3, h4, h5⟩
  | cons c reg ih =>
      intro acc acc' h1 h2 h3 h4 h5
      simp only [List.foldl_cons]
      have hs := step_component_core_eq cur cbs cbs' db db' cd now c
        acc'.event_history acc'.last_notification_time
      refine ih _ _ ?_ ?_ ?_ ?_ ?_ <;>
        simp only [ConnectionMonitor.process_component, h1, h2, h3, h4,
          h5]
      · rw [hs.1]
      · rw [hs.2.1]
      · rw [hs.2.2.1]
      · rw [hs.2.2.2.1]
      · rw [hs.2.2.2.2]

/-- C4: a tick's resulting monitor data and notifications are identical
under every behaviour of the fallible collaborators (event callbacks,
notification database, snapshot store) — each raise is caught at its
call site — so a collaborator exception occurring while one component is
processed never prevents any other component from being reclassified,
and every registered component appears reclassified in the tick's
result. -/
theorem C4_per_component_isolation :
    ∀ (cur : ConnectionMonitor.CurrentStatus)
      (cbs cbs' : List ConnectionMonitor.EventCallback)
      (db db' : ConnectionMonitor.DbAddNotification)
      (st st' : ConnectionMonitor.StoreSnapshot) (cd : ℚ)
      (m : ConnectionMonitor.MonitorData) (now : ℚ),
      (ConnectionMonitor.check_all_components cur cbs db st cd m now).1 =
        (ConnectionMonitor.check_all_components cur cbs' db' st' cd m
          now).1 ∧
      (ConnectionMonitor.check_all_components cur cbs db st cd m
          now).2.1 =
        (ConnectionMonitor.check_all_components cur cbs' db' st' cd m
          now).2.1 ∧
      ((ConnectionMonitor.check_all_components cur cbs db st cd m
          now).1).registry.length = m.registry.length := by
  intro cur cbs cbs' db db' st st' cd m now
  have hcore := fold_process_core_eq cur cbs cbs' db db' cd now
    m.registry
    { registry := [], event_history := m.event_history
      last_notification_time := m.last_notification_time
      notifications := [], errLog := [], status_changed := false }
    { registry := [], event_history := m.event_history
      last_notification_time := m.last_notification_time
      notifications := [], errLog := [], status_changed := false }
    rfl rfl rfl rfl rfl
  have hreg := fold_process_registry cur cbs db cd now m.registry
    { registry := [], event_history := m.event_history
      last_notification_time := m.last_notification_time
      notifications := [], errLog := [], status_changed := false }
  unfold ConnectionMonitor.check_all_components
  dsimp only
  refine ⟨?_, ?_, ?_⟩
  · rw [hcore.1, hcore.2.1, hcore.2.2.1]
  · rw [hcore.2.2.2.1]
  · rw [hreg]
    simp

/-- Witness for C4: with a callback and a database that always raise
during the main hub's warning transition, the tick produces the same
monitor data and notifications as with collaborators that never fail. -/
theorem C4_per_component_isolation_witness :
    (ConnectionMonitor.check_all_components ConnectionMonitor.warnCur
        [ConnectionMonitor.raisingCallback] ConnectionMonitor.failDbAdd
        ConnectionMonitor.okStore 300 ConnectionMonitor.initialMonitorData
        0).1 =
      (ConnectionMonitor.check_all_components ConnectionMonitor.warnCur
        [] ConnectionMonitor.okDbAdd ConnectionMonitor.okStore 300
        ConnectionMonitor.initialMonitorData 0).1 ∧
    ((ConnectionMonitor.check_all_components ConnectionMonitor.warnCur
        [ConnectionMonitor.raisingCallback] ConnectionMonitor.failDbAdd
        ConnectionMonitor.okStore 300 ConnectionMonitor.initialMonitorData
        0).1).registry.length =
      ConnectionMonitor.initialMonitorData.registry.length :=
  ⟨(C4_per_component_isolation ConnectionMonitor.warnCur
      [ConnectionMonitor.raisingCallback] [] ConnectionMonitor.failDbAdd
      ConnectionMonitor.okDbAdd ConnectionMonitor.okStore
      ConnectionMonitor.okStore 300 ConnectionMonitor.initialMonitorData
      0).1,
   (C4_per_component_isolation ConnectionMonitor.warnCur
      [ConnectionMonitor.raisingCallback] [] ConnectionMonitor.failDbAdd
      ConnectionMonitor.okDbAdd ConnectionMonitor.okStore
      ConnectionMonitor.okStore 300 ConnectionMonitor.initialMonitorData
      0).2.2⟩

/-- Across the per-component loop, the number of notifications for a
given component id grows by at most the number of registry entries
carrying that id. -/
theorem fold_notif_xid_bound (cur : ConnectionMonitor.CurrentStatus)
    (cbs : List ConnectionMonitor.EventCallback)
    (db : ConnectionMonitor.DbAddNotification) (cd now : ℚ)
    (xid : String) :
    ∀ (reg : List ConnectionMonitor.Component)
      (acc : ConnectionMonitor.TickAcc),
      (((reg.foldl (ConnectionMonitor.process_component cur cbs db cd
          now) acc).notifications.filter
        fun n => n.component_id == xid).length) ≤
        ((acc.notifications.filter fun n =>
          n.component_id == xid).length) +
        reg.countP (fun c => c.id == xid) := by
  intro reg
  induction reg with
  | nil => intro acc; simp
  | cons c reg ih =>
      intro acc
      simp only [List.foldl_cons, List.countP_cons]
      refine le_trans (ih _) ?_
      have hn : ((ConnectionMonitor.process_component cur cbs db cd now
          acc c).notifications.filter fun n =>
            n.component_id == xid).length ≤
          (acc.notifications.filter fun n =>
            n.component_id == xid).length +
          (if c.id == xid then 1 else 0) := by
        simp only [ConnectionMonitor.process_component]
        rw [List.filter_append, List.length_append]
        cases hne : (ConnectionMonitor.step_component cur cbs db cd now c
            acc.event_history acc.last_notification_time).2.2.2.1 with
        | none =>
            simp only [hne, Option.toList_none, List.filter_nil,
              List.length_nil]
            split_ifs <;> omega
        | some n =>
            have hid := step_component_notif_id cur cbs db cd now c
              acc.event_history acc.last_notification_time n hne
            by_cases hx : c.id == xid
            · simp only [hne, Option.toList_some, hx, if_true]
              have : (List.filter (fun n => n.component_id == xid)
                  [n]).length ≤ 1 := by
                cases hb : n.component_id == xid <;>
                  simp [List.filter_cons, hb]
              omega
            · have hnx : (n.component_id == xid) = false := by
                rw [hid]
                exact Bool.of_not_eq_true hx
              simp [hne, hnx, hx]
      omega

/-- When every registry entry with the given id is already steady in the
warning state reported by the snapshot, the per-component loop adds no
notification for that id. -/
theorem fold_notif_xid_steady (cur : ConnectionMonitor.CurrentStatus)
    (cbs : List ConnectionMonitor.EventCallback)
    (db : ConnectionMonitor.DbAddNotification) (cd now : ℚ)
    (xid : String) :
    ∀ (reg : List ConnectionMonitor.Component)
      (acc : ConnectionMonitor.TickAcc),
      (∀ c ∈ reg, c.id = xid →
        Option.map ConnectionMonitor.StatusData.state
            (ConnectionMonitor.status_lookup cur c) =
          some (some CState.warning) ∧ c.state = CState.warning) →
      ((reg.foldl (ConnectionMonitor.process_component cur cbs db cd now)
          acc).notifications.filter fun n => n.component_id == xid) =
        (acc.notifications.filter fun n => n.component_id == xid) := by
  intro reg
  induction reg with
  | nil => intro acc _; rfl
  | cons c reg ih =>
      intro acc hinv
      simp only [List.foldl_cons]
      rw [ih _ fun c' hc' => hinv c' (List.mem_cons_of_mem c hc')]
      simp only [ConnectionMonitor.process_component]
      rw [List.filter_append]
      cases hne : (ConnectionMonitor.step_component cur cbs db cd now c
          acc.event_history acc.last_notification_time).2.2.2.1 with
      | none => simp [hne]
      | some n =>
          have hid := step_component_notif_id cur cbs db cd now c
            acc.event_history acc.last_notification_time n hne
          by_cases hx : c.id = xid
          · have hsteady := step_component_steady cur cbs db cd now c
              acc.event_history acc.last_notification_time
              (hinv c (List.mem_cons_self c reg) hx).1
              (hinv c (List.mem_cons_self c reg) hx).2
            rw [hsteady.2.2.1] at hne
            exact absurd hne (by simp)
          · have hnx : (n.component_id == xid) = false := by
              rw [hid]
              exact beq_eq_false_iff_ne.mpr hx
            simp [hne, hnx]

/-- The notifications of one tick are those accumulated by the
per-component loop. -/
theorem check_all_components_notifications
    (cur : ConnectionMonitor.CurrentStatus)
    (cbs : List ConnectionMonitor.EventCallback)
    (db : ConnectionMonitor.DbAddNotification)
    (st : ConnectionMonitor.StoreSnapshot) (cd : ℚ)
    (m : ConnectionMonitor.MonitorData) (now : ℚ) :
    (ConnectionMonitor.check_all_components cur cbs db st cd m now).2.1 =
      (m.registry.foldl (ConnectionMonitor.process_component cur cbs db
        cd now)
        { registry := [], event_history := m.event_history
          last_notification_time := m.last_notification_time
          notifications := [], errLog := []
          status_changed := false }).notifications := rfl

/-- The registry after one tick is the input registry mapped through the
pure tick update followed by metric recomputation. -/
theorem check_all_components_registry
    (cur : ConnectionMonitor.CurrentStatus)
    (cbs : List ConnectionMonitor.EventCallback)
    (db : ConnectionMonitor.DbAddNotification)
    (st : ConnectionMonitor.StoreSnapshot) (cd : ℚ)
    (m : ConnectionMonitor.MonitorData) (now : ℚ) :
    (ConnectionMonitor.check_all_components cur cbs db st cd m
        now).1.registry =
      (m.registry.map (ConnectionMonitor.tick_component cur now)).map
        (ConnectionMonitor.calculate_metrics now) := by
  show ((m.registry.foldl (ConnectionMonitor.process_component cur cbs db
      cd now)
      { registry := [], event_history := m.event_history
        last_notification_time := m.last_notification_time
        notifications := [], errLog := []
        status_changed := false }).registry).map
      (ConnectionMonitor.calculate_metrics now) = _
  rw [fold_process_registry]
  simp

/-- One tick keeps steady-warning components steady: every registry entry
with the given id stays in the warning state the snapshot reports, and
the number of entries with that id does not change. -/
theorem tick_preserves_warm (cur : ConnectionMonitor.CurrentStatus)
    (cbs : List ConnectionMonitor.EventCallback)
    (db : ConnectionMonitor.DbAddNotification)
    (st : ConnectionMonitor.StoreSnapshot) (cd : ℚ)
    (m : ConnectionMonitor.MonitorData) (now : ℚ) (xid : String)
    (hsd : ∀ c ∈ m.registry, c.id = xid →
      Option.map ConnectionMonitor.StatusData.state
          (ConnectionMonitor.status_lookup cur c) =
        some (some CState.warning)) :
    (∀ c' ∈ (ConnectionMonitor.check_all_components cur cbs db st cd m
        now).1.registry, c'.id = xid →
      Option.map ConnectionMonitor.StatusData.state
          (ConnectionMonitor.status_lookup cur c') =
        some (some CState.warning) ∧ c'.state = CState.warning) ∧
    (ConnectionMonitor.check_all_components cur cbs db st cd m
        now).1.registry.countP (fun c => c.id == xid) =
      m.registry.countP (fun c => c.id == xid) := by
  constructor
  · intro c' hc' hid
    rw [check_all_components_registry] at hc'
    rcases List.mem_map.mp hc' with ⟨c2, hc2m, rfl⟩
    rcases List.mem_map.mp hc2m with ⟨c0, hc0, rfl⟩
    have hid0 : c0.id = xid := by
      have h1 := (calculate_metrics_fields now
        (ConnectionMonitor.tick_component cur now c0)).1
      have h2 := (tick_component_id_type cur now c0).1
      rw [h1, h2] at hid
      exact hid
    have hsd0 := hsd c0 hc0 hid0
    have heq : ConnectionMonitor.status_lookup cur
        (ConnectionMonitor.calculate_metrics now
          (ConnectionMonitor.tick_component cur now c0)) =
        ConnectionMonitor.status_lookup cur c0 := by
      apply status_lookup_congr
      · rw [(calculate_metrics_fields now _).1,
          (tick_component_id_type cur now c0).1]
      · rw [(calculate_metrics_fields now _).2.1,
          (tick_component_id_type cur now c0).2]
    refine ⟨by rw [heq]; exact hsd0, ?_⟩
    rw [(calculate_metrics_fields now _).2.2]
    exact tick_component_state_warm cur now c0 hsd0
  · rw [check_all_components_registry]
    rw [List.countP_map, List.countP_map]
    apply List.countP_congr
    intro c0 hc0
    simp only [Function.comp_apply]
    rw [(calculate_metrics_fields now _).1,
      (tick_component_id_type cur now c0).1]

/-- Once every registry entry with the given id is steady in the warning
state, no further tick ever produces a notification for that id. -/
theorem run_ticks_steady (cur : ConnectionMonitor.CurrentStatus)
    (cbs : List ConnectionMonitor.EventCallback)
    (db : ConnectionMonitor.DbAddNotification)
    (st : ConnectionMonitor.StoreSnapshot) (cd : ℚ) (xid : String) :
    ∀ (ticks : List ℚ) (m : ConnectionMonitor.MonitorData),
      (∀ c ∈ m.registry, c.id = xid →
        Option.map ConnectionMonitor.StatusData.state
            (ConnectionMonitor.status_lookup cur c) =
          some (some CState.warning) ∧ c.state = CState.warning) →
      ((ConnectionMonitor.run_ticks cur cbs db st cd m ticks).2.filter
        fun n => n.component_id == xid) = [] := by
  intro ticks
  induction ticks with
  | nil =>
      intro m _
      simp [ConnectionMonitor.run_ticks]
  | cons now rest ih =>
      intro m hinv
      simp only [ConnectionMonitor.run_ticks]
      rw [List.filter_append]
      have h1 : ((ConnectionMonitor.check_all_components cur cbs db st cd
          m now).2.1.filter fun n => n.component_id == xid) = [] := by
        rw [check_all_components_notifications]
        rw [fold_notif_xid_steady cur cbs db cd now xid m.registry _ hinv]
        rfl
      have hwarm := tick_preserves_warm cur cbs db st cd m now xid
        (fun c hc hid => (hinv c hc hid).1)
      rw [h1, ih _ hwarm.1]
      rfl

/-- C5: notifications are produced only on detected transitions: for a
component id that the status snapshot steadily reports in the warning
state (and that occurs at most once in the registry, as every dict key
does), any number of consecutive ticks produces at most one notification
for that id in total — never one per tick. -/
theorem C5_transition_only_notification :
    ∀ (cur : ConnectionMonitor.CurrentStatus)
      (cbs : List ConnectionMonitor.EventCallback)
      (db : ConnectionMonitor.DbAddNotification)
      (st : ConnectionMonitor.StoreSnapshot) (cd : ℚ)
      (m : ConnectionMonitor.MonitorData) (ticks : List ℚ) (xid : String),
      m.registry.countP (fun c => c.id == xid) ≤ 1 →
      (∀ c ∈ m.registry, c.id = xid →
        Option.map ConnectionMonitor.StatusData.state
            (ConnectionMonitor.status_lookup cur c) =
          some (some CState.warning)) →
      ((ConnectionMonitor.run_ticks cur cbs db st cd m ticks).2.filter
        fun n => n.component_id == xid).length ≤ 1 := by
  intro cur cbs db st cd m ticks xid hcount hsd
  cases ticks with
  | nil => simp [ConnectionMonitor.run_ticks]
  | cons now rest =>
      simp only [ConnectionMonitor.run_ticks]
      rw [List.filter_append, List.length_append]
      have h1 : ((ConnectionMonitor.check_all_components cur cbs db st cd
          m now).2.1.filter fun n => n.component_id == xid).length ≤ 1 := by
        rw [check_all_components_notifications]
        refine le_trans (fold_notif_xid_bound cur cbs db cd now xid
          m.registry _) ?_
        simpa using hcount
      have hwarm := tick_preserves_warm cur cbs db st cd m now xid hsd
      have h2 := run_ticks_steady cur cbs db st cd xid rest
        (ConnectionMonitor.check_all_components cur cbs db st cd m
          now).1 hwarm.1
      rw [h2]
      simpa using h1

/-- Witness for C5: the main hub steadily reported in warning over three
ticks of the initial monitor yields at most one notification for it. -/
theorem C5_transition_only_notification_witness :
    ConnectionMonitor.initialMonitorData.registry.countP
      (fun c => c.id == "main_hub") ≤ 1 ∧
    ((ConnectionMonitor.run_ticks ConnectionMonitor.warnCur []
        ConnectionMonitor.okDbAdd ConnectionMonitor.okStore 300
        ConnectionMonitor.initialMonitorData [0, 60, 120]).2.filter
      fun n => n.component_id == "main_hub").length ≤ 1 :=
  ⟨by decide,
   C5_transition_only_notification ConnectionMonitor.warnCur []
     ConnectionMonitor.okDbAdd ConnectionMonitor.okStore 300
     ConnectionMonitor.initialMonitorData [0, 60, 120] "main_hub"
     (by decide) (by decide)⟩

end FloraSeven
